import Mathlib

/-!
Verification of the vercel-to-github-relay webhook handler.

The repository relays Vercel "deployment succeeded" webhooks to GitHub:
it checks an HMAC-SHA1 signature over the raw body, parses the JSON
envelope, extracts the preview URL / git ref / project name, resolves a
head commit SHA, creates a GitHub check run, and dispatches a workflow.

This file shallowly embeds two source files:

* `src/apps/vercel-to-github-relay/api/vercel-to-github-success-deployment.ts`
  (the deployed handler) — namespace `Relay`;
* `src/unnamed/part_000` (the duck-typed draft handler whose normalization
  supports both the flat deployment-object dialect and the nested
  envelope dialect) — namespace `V0`.

JSON values are modelled by the inductive `JVal`, with an explicit
`undefined` constructor for JavaScript's `undefined` (an absent property).
The JS operators used by the source (`||`, `&&`, `??`, `?.`, truthiness,
string coercion) are embedded as functions on `JVal`.  Unguarded property
access on `null`/`undefined` — which throws a `TypeError` in JS — is
embedded as `jgetE`, returning `Except Unit JVal`; a handler execution
that would raise an uncaught exception yields an `Outcome` with no
response.  External effects (HMAC, JSON parsing, the five GitHub API
calls) are parameters: HMAC and parsing are function arguments, the
forge's behaviour is a `World` record, and the calls the handler issues
are recorded in an explicit `ForgeCall` trace.
-/

/-- A JavaScript/JSON value as seen by the handler after `JSON.parse`.
`undefined` is JavaScript `undefined` (the result of reading an absent
property); `JSON.parse` itself never returns it, but property probing
does. Numbers are modelled as integers (no claim involves fractions). -/
inductive JVal where
  | undefined : JVal
  | null : JVal
  | bool (b : Bool) : JVal
  | num (n : Int) : JVal
  | str (s : String) : JVal
  | arr (elems : List JVal) : JVal
  | obj (fields : List (String × JVal)) : JVal
deriving Repr

namespace JVal

/-- JS strict equality `v === "s"` against a string literal, as the
source writes its event-kind and state comparisons. -/
def isStr (v : JVal) (s : String) : Bool :=
  match v with
  | .str t => t == s
  | _ => false

/-- JS truthiness: `undefined`, `null`, `false`, `0` and `""` are falsy;
every object and array (even empty) is truthy. -/
def truthy : JVal → Bool
  | .undefined => false
  | .null => false
  | .bool b => b
  | .num n => n != 0
  | .str s => !s.isEmpty
  | .arr _ => true
  | .obj _ => true

/-- Is the value `null` or `undefined` (the two JS nullish values)? -/
def nullish : JVal → Bool
  | .undefined => true
  | .null => true
  | _ => false

/-- Property read `v.k` on a non-nullish receiver: a field of an object,
`undefined` for a missing field or a primitive receiver. -/
def jget : JVal → String → JVal
  | .obj fs, k => (fs.lookup k).getD .undefined
  | _, _ => .undefined

/-- Optional chaining `v?.k`: `undefined` when the receiver is nullish,
otherwise a plain property read. -/
def jgetOpt (v : JVal) (k : String) : JVal :=
  if v.nullish then .undefined else v.jget k

/-- Unguarded property read `v.k` as written in the source without `?.`:
throws (`.error`) when the receiver is nullish, exactly where JS raises
`TypeError: cannot read properties of undefined/null`. -/
def jgetE (v : JVal) (k : String) : Except Unit JVal :=
  if v.nullish then .error () else .ok (v.jget k)

/-- JS `a || b`. -/
def jsOr (a b : JVal) : JVal := if a.truthy then a else b

/-- JS `a && b`. -/
def jsAnd (a b : JVal) : JVal := if a.truthy then b else a

/-- JS `a ?? b` (nullish coalescing): keeps `a` unless it is nullish —
in particular an empty string on the left wins. -/
def jsCoalesce (a b : JVal) : JVal := if a.nullish then b else a

/-- JS index read `v[0]` as used on `deployment.aliases`: element of an
array, first character of a string, the `"0"` property of an object,
`undefined` otherwise (the source only reaches it behind a truthiness
guard, so the receiver is never nullish there). -/
def jidx0 : JVal → JVal
  | .arr es => (es.head?).getD .undefined
  | .str s => if s.isEmpty then .undefined else .str (s.take 1)
  | .obj fs => (fs.lookup "0").getD .undefined
  | _ => .undefined

mutual

/-- JS string coercion `String(v)`, as performed by template literals
such as the check-run name and the error messages. -/
def jsToString : JVal → String
  | .undefined => "undefined"
  | .null => "null"
  | .bool b => cond b "true" "false"
  | .num n => toString n
  | .str s => s
  | .obj _ => "[object Object]"
  | .arr es => jsArrToString es

/-- Array coercion: elements joined by commas, nullish elements empty. -/
def jsArrToString : List JVal → String
  | [] => ""
  | [v] => jsElemToString v
  | v :: rest => jsElemToString v ++ "," ++ jsArrToString rest

/-- One array element under string coercion. -/
def jsElemToString : JVal → String
  | .null => ""
  | .undefined => ""
  | v => jsToString v

end

end JVal

/-! ## The deployed handler

Embedding of `src/apps/vercel-to-github-relay/api/vercel-to-github-success-deployment.ts`.
-/

namespace Relay

open JVal

/-- Source constant `GH_WORKFLOW_FILE` (line 5). -/
def ghWorkflowFile : String := "e2e.yaml"

/-- Source constant `CHECK_NAME_PREFIX` (line 6): the fixed leading part
of the check-run name. -/
def checkNameStart : String := "E2E Tests —"

/-- The environment variables the handler reads (`process.env.*`); a
variable is either unset (`none`) or a string, possibly empty. -/
structure Env where
  secret : Option String
  ghOwner : Option String
  ghRepo : Option String
  ghToken : Option String

/-- The inbound HTTP request: method, the `x-vercel-signature` header
(absent or a single string value) and the raw body text. -/
structure Req where
  method : String
  sigHeader : Option String
  raw : String

/-- One outbound GitHub API call, as observable in the handler's trace.
Repository owner/name, the bearer token and timestamps are elided: no
claim mentions them. `createCheck` records the request body's
`head_sha`, `name` and `status` fields; `workflowDispatch` records the
workflow file, the dispatch body's `ref` and its three `inputs`;
`failCheck` records the PATCH body's `status`, `conclusion` and the
`output.summary` text. -/
inductive ForgeCall where
  | commitLookup (ref : JVal)
  | branchHeadLookup (ref : JVal)
  | createCheck (headSha : String) (name : String) (status : String)
  | workflowDispatch (workflow : String) (ref : JVal) (url : String)
      (project : JVal) (check_run_id : String)
  | failCheck (id : Nat) (status : String) (conclusion : String) (summary : String)

/-- An HTTP response the handler sends: `res.status(n).send(body)`. -/
structure Resp where
  status : Nat
  body : String

/-- The observable result of one handler invocation: the response (or
`none` when the execution raises an uncaught exception and sends no
response) and the ordered trace of outbound forge calls issued. -/
structure Outcome where
  resp : Option Resp
  calls : List ForgeCall

/-- The forge's behaviour for this invocation, one field per network
call the handler may make.  `commitByRefSha = some sha` models an OK
`GET /repos/../commits/ref` response whose JSON carries a truthy `sha`;
`none` models any failing or sha-less response.  Likewise
`branchHeadSha` for `GET /repos/../git/ref/heads/ref` and its
`object.sha`.  `createCheckResult` is the created check run's `id`, or
`.error (status, text)` for a non-ok response.  `dispatchOk` is
`resp.ok` of the workflow-dispatch POST, with `dispatchStatus` and
`dispatchErrText` its status and body text when not ok.
`failCheckThrows` says whether the best-effort check-run PATCH inside
`safeFailCheck` itself throws (the source swallows that error). -/
structure World where
  commitByRefSha : Option String
  branchHeadSha : Option String
  createCheckResult : Except (Nat × String) Nat
  dispatchOk : Bool
  dispatchStatus : Nat
  dispatchErrText : String
  failCheckThrows : Bool

/-- JS `u.startsWith(p)`, written over character lists so it computes
by kernel reduction (semantically `String.startsWith`). -/
def strStartsWith (u p : String) : Bool := p.toList.isPrefixOf u.toList

/-- Line 42: `rawUrl.startsWith("http") ? rawUrl : "https://" + rawUrl`. -/
def urlNormalize (u : String) : String :=
  if strStartsWith u "http" then u else "https://" ++ u

/-- Line 44: `dep.meta?.githubCommitRef ?? dep.meta?.gitlabCommitRef ??
dep.meta?.branch ?? dep.ref ?? ""` — note `??`, not `||`: only nullish
values fall through, an empty string does not. -/
def refOf (dep : JVal) : JVal :=
  jsCoalesce (jgetOpt (dep.jget "meta") "githubCommitRef")
    (jsCoalesce (jgetOpt (dep.jget "meta") "gitlabCommitRef")
      (jsCoalesce (jgetOpt (dep.jget "meta") "branch")
        (jsCoalesce (dep.jget "ref") (.str ""))))

/-- Lines 59-60: `dep.meta?.githubCommitSha || dep.meta?.commitSha ||
dep.meta?.sha`, kept only when it is a non-empty string. -/
def metaShaOf (dep : JVal) : Option String :=
  let metaSha := jsOr (jgetOpt (dep.jget "meta") "githubCommitSha")
    (jsOr (jgetOpt (dep.jget "meta") "commitSha") (jgetOpt (dep.jget "meta") "sha"))
  match metaSha with
  | .str s => if s.length > 0 then some s else none
  | _ => none

/-- `resolveHeadSha` (lines 124-145): the commit-by-ref lookup first;
on success with a truthy `sha` return it, otherwise the branch-head
lookup; if neither yields a sha, throw
`Could not resolve SHA for ref '<ref>'`.  Returns the thrown message or
the sha, together with the lookup calls issued. -/
def resolveHeadSha (w : World) (ref : JVal) : Except String String × List ForgeCall :=
  match w.commitByRefSha with
  | some sha => (.ok sha, [.commitLookup ref])
  | none =>
    match w.branchHeadSha with
    | some sha => (.ok sha, [.commitLookup ref, .branchHeadLookup ref])
    | none =>
      (.error ("Could not resolve SHA for ref '" ++ jsToString ref ++ "'"),
        [.commitLookup ref, .branchHeadLookup ref])

/-- `createCheckRun` (lines 147-160): POST the check run with
`status: "queued"`; on a non-ok response throw
`createCheckRun failed: <status> <text>`, else return the new id. -/
def createCheckRun (w : World) (headSha name : String) :
    Except String Nat × List ForgeCall :=
  ((match w.createCheckResult with
    | .ok id => .ok id
    | .error (st, err) => .error ("createCheckRun failed: " ++ toString st ++ " " ++ err)),
   [.createCheck headSha name "queued"])

/-- `safeFailCheck` (lines 162-177): PATCH the check run to
`completed`/`failure` with the given summary; its own failure is caught
and discarded, so the attempt is the only observable effect. -/
def safeFailCheck (_w : World) (id : Nat) (summary : String) : List ForgeCall :=
  [.failCheck id "completed" "failure" summary]

/-- Lines 71-98 of `handler`: the check-run creation and workflow
dispatch, entered with the resolved `headSha` and the lookup calls
(`pre`) already issued. -/
def dispatchPhase (w : World) (dep ref : JVal) (url : String)
    (pre : List ForgeCall) (headSha : String) : Outcome :=
  let checkName := checkNameStart ++ jsToString (dep.jget "name")
  match createCheckRun w headSha checkName with
  | (.error msg, cc) =>
    ⟨some ⟨502, "Failed to create check run: " ++ msg⟩, pre ++ cc⟩
  | (.ok checkRunId, cc) =>
    let dcall := ForgeCall.workflowDispatch ghWorkflowFile ref url
      (dep.jget "name") (toString checkRunId)
    if w.dispatchOk then
      ⟨some ⟨200, "OK"⟩, pre ++ cc ++ [dcall]⟩
    else
      let fc := safeFailCheck w checkRunId
        ("workflow_dispatch failed: " ++ toString w.dispatchStatus ++ " " ++ w.dispatchErrText)
      ⟨some ⟨502, "GitHub workflow_dispatch failed: " ++ toString w.dispatchStatus
          ++ " " ++ w.dispatchErrText⟩,
        pre ++ cc ++ [dcall] ++ fc⟩

/-- Lines 59-98 of `handler`: commit resolution (metadata sha fast path,
then the two lookups) followed by the dispatch phase; an exhausted
resolution is a 502 naming the ref. -/
def processEvent (w : World) (dep ref : JVal) (url : String) : Outcome :=
  match metaShaOf dep with
  | some headSha => dispatchPhase w dep ref url [] headSha
  | none =>
    match resolveHeadSha w ref with
    | (.error msg, calls) =>
      ⟨some ⟨502, "Failed to resolve head SHA for ref '" ++ jsToString ref ++ "': " ++ msg⟩,
        calls⟩
    | (.ok headSha, calls) => dispatchPhase w dep ref url calls headSha

/-- `handler` (lines 8-99).  `hmac secret body` is node's
`crypto.createHmac("sha1", secret).update(body).digest("hex")`;
`parse` is `JSON.parse`, `none` for a syntax error.  An `Outcome` with
`resp = none` marks a path on which the source raises an uncaught
exception (unguarded property access on a nullish value, or calling
`.startsWith` on a non-string). -/
def handler (hmac : String → String → String) (parse : String → Option JVal)
    (env : Env) (w : World) (req : Req) : Outcome :=
  if req.method ≠ "POST" then ⟨some ⟨405, "Method Not Allowed"⟩, []⟩
  else
    let secret := env.secret.getD ""
    if secret = "" then ⟨some ⟨500, "Missing VERCEL_WEBHOOK_SECRET"⟩, []⟩
    else
      let signature := hmac secret req.raw
      if req.sigHeader ≠ some signature then ⟨some ⟨401, "Invalid signature"⟩, []⟩
      else
        match parse req.raw with
        | none => ⟨some ⟨400, "Invalid JSON"⟩, []⟩
        | some envl =>
          match jgetE envl "type" with
          | .error _ => ⟨none, []⟩
          | .ok t =>
            if !t.isStr "deployment.succeeded" then ⟨some ⟨202, "Ignored"⟩, []⟩
            else
              match jgetE envl "payload" with
              | .error _ => ⟨none, []⟩
              | .ok payload =>
                match jgetE payload "deployment" with
                | .error _ => ⟨none, []⟩
                | .ok dep =>
                  match jgetE dep "url" with
                  | .error _ => ⟨none, []⟩
                  | .ok rawUrl =>
                    match rawUrl with
                    | .str u =>
                      let url := urlNormalize u
                      let ref := refOf dep
                      if u = "" ∨ ref.truthy = false then
                        ⟨some ⟨400, "Missing URL or branch ref"⟩, []⟩
                      else
                        if env.ghOwner.getD "" = "" ∨ env.ghRepo.getD "" = ""
                            ∨ env.ghToken.getD "" = "" then
                          ⟨some ⟨500, "Missing GH_OWNER/GH_REPO/GH_TOKEN_RELAY"⟩, []⟩
                        else processEvent w dep ref url
                    | _ => ⟨none, []⟩

end Relay

/-! ## The duck-typed draft handler's normalizer

Embedding of the event normalization in `src/unnamed/part_000`
(lines 20-55): the variant that probes several envelope dialects.  All
functions take the parsed JSON body (`payload` in the source); their
domain is the body as produced by `JSON.parse` (the source would throw
before reaching them were the body `null`).
-/

namespace V0

open JVal

/-- Line 21: `payload.type || payload.event || payload.action || ""`. -/
def typeOf (payload : JVal) : JVal :=
  jsOr (payload.jget "type")
    (jsOr (payload.jget "event") (jsOr (payload.jget "action") (.str "")))

/-- Line 22: `payload.deployment || payload.payload?.deployment || payload` —
the nested `{deployment}` shape, the `{type, payload:{deployment}}`
envelope, or the flat deployment-object body itself. -/
def deploymentOf (payload : JVal) : JVal :=
  jsOr (payload.jget "deployment")
    (jsOr (jgetOpt (payload.jget "payload") "deployment") payload)

/-- Line 23: `deployment.state || deployment.status`. -/
def stateOf (payload : JVal) : JVal :=
  jsOr ((deploymentOf payload).jget "state") ((deploymentOf payload).jget "status")

/-- Line 25: the ready-event discrimination over kind tag and state. -/
def isReadyEvent (payload : JVal) : Bool :=
  (typeOf payload).isStr "deployment.succeeded"
    || (typeOf payload).isStr "deployment.ready"
    || (stateOf payload).isStr "READY"
    || (stateOf payload).isStr "ready"

/-- Lines 32-39: the preview-address probe chain ending in
`(deployment.aliases && deployment.aliases[0]) || ""`. -/
def rawUrlOf (payload : JVal) : JVal :=
  let d := deploymentOf payload
  jsOr (d.jget "url")
    (jsOr (d.jget "previewUrl")
      (jsOr (d.jget "environment_url")
        (jsOr (d.jget "target_url")
          (jsOr (d.jget "alias")
            (jsOr (jsAnd (d.jget "aliases") (jidx0 (d.jget "aliases")))
              (.str ""))))))

/-- Line 46: `deployment.meta || payload.meta || payload.payload?.meta || {}`. -/
def metaOf (payload : JVal) : JVal :=
  jsOr ((deploymentOf payload).jget "meta")
    (jsOr (payload.jget "meta")
      (jsOr (jgetOpt (payload.jget "payload") "meta") (.obj [])))

/-- Line 48: `meta.githubCommitRef || meta.gitlabCommitRef || meta.branch
|| deployment.ref || payload.ref || ""` — `||`, so the first non-empty
match wins. -/
def refOf (payload : JVal) : JVal :=
  jsOr ((metaOf payload).jget "githubCommitRef")
    (jsOr ((metaOf payload).jget "gitlabCommitRef")
      (jsOr ((metaOf payload).jget "branch")
        (jsOr ((deploymentOf payload).jget "ref")
          (jsOr (payload.jget "ref") (.str "")))))

/-- Line 55: `deployment.project?.name || deployment.name ||
payload.project?.name || ""`. -/
def projectOf (payload : JVal) : JVal :=
  jsOr (jgetOpt ((deploymentOf payload).jget "project") "name")
    (jsOr ((deploymentOf payload).jget "name")
      (jsOr (jgetOpt (payload.jget "project") "name") (.str "")))

end V0

/-! ## Statement apparatus

Definitions used by the theorems below: the guard predicate describing a
request that reaches commit resolution, trace observers, the claims'
two dialect shapes, and concrete sample inputs for witnesses.
-/

namespace Relay

open JVal

/-- The request reaches the commit-resolution phase (source line 59):
POST method, configured non-empty secret, matching signature, parsable
body, recognized kind tag, payload and deployment present, a non-empty
string `url`, a truthy extracted ref, and full GitHub configuration. -/
structure Reaches (hmac : String → String → String) (parse : String → Option JVal)
    (env : Env) (req : Req) (envl payload dep : JVal) (u : String) : Prop where
  hmethod : req.method = "POST"
  hsecret : env.secret.getD "" ≠ ""
  hsig : req.sigHeader = some (hmac (env.secret.getD "") req.raw)
  hparse : parse req.raw = some envl
  htype : jgetE envl "type" = .ok (.str "deployment.succeeded")
  hpayload : jgetE envl "payload" = .ok payload
  hdep : jgetE payload "deployment" = .ok dep
  hurl : jgetE dep "url" = .ok (.str u)
  hu : u ≠ ""
  href : (refOf dep).truthy = true
  howner : env.ghOwner.getD "" ≠ ""
  hrepo : env.ghRepo.getD "" ≠ ""
  htoken : env.ghToken.getD "" ≠ ""

/-- Is a forge call one of the two commit-resolution network lookups? -/
def isLookupCall : ForgeCall → Bool
  | .commitLookup _ => true
  | .branchHeadLookup _ => true
  | _ => false

/-- How many attempts an outcome's trace contains to mark a check run
failed (the `safeFailCheck` PATCH). -/
def Outcome.failCheckAttempts (o : Outcome) : Nat :=
  o.calls.countP fun c => match c with | .failCheck _ _ _ _ => true | _ => false

/-- The first value in the list that is not nullish, or `""` — the
priority rule the `??` chain of source line 44 actually implements
(contrast: the spec's rule is first non-EMPTY). -/
def firstNonNullish : List JVal → JVal
  | [] => .str ""
  | v :: vs => if v.nullish then firstNonNullish vs else v

/-- A stand-in keyed digest for witnesses: any concrete function works,
since the handler only compares its output against the header. -/
def sampleHmac : String → String → String := fun secret body => secret ++ ":" ++ body

/-- Sample deployment whose metadata already carries a commit sha. -/
def sampleDep : JVal :=
  .obj [("url", .str "dash-abc.example.com"), ("name", .str "dashboard"),
    ("meta", .obj [("githubCommitSha", .str "abc123"), ("githubCommitRef", .str "main")]),
    ("ref", .str "main")]

/-- Sample deployment with a branch ref but no metadata commit sha. -/
def sampleDepNoSha : JVal :=
  .obj [("url", .str "dash-abc.example.com"), ("name", .str "dashboard"),
    ("meta", .obj [("githubCommitRef", .str "main")]), ("ref", .str "main")]

/-- Wraps a deployment in the nested webhook envelope. -/
def sampleEnvl (dep : JVal) : JVal :=
  .obj [("type", .str "deployment.succeeded"), ("payload", .obj [("deployment", dep)])]

/-- Sample configuration with all four variables set. -/
def sampleEnv : Env := ⟨some "wh-secret", some "acme", some "webapp", some "ghp-token"⟩

/-- Sample POST request correctly signed under `sampleHmac`. -/
def sampleReq : Req := ⟨"POST", some (sampleHmac "wh-secret" "rawbody"), "rawbody"⟩

/-- A parser returning the given parsed body for every raw text. -/
def sampleParse (v : JVal) : String → Option JVal := fun _ => some v

/-- Forge behaviour: everything succeeds, check run id 7. -/
def sampleWorldOk : World := ⟨some "c0ffee", some "beef00", .ok 7, true, 0, "", false⟩

/-- Forge behaviour: check run created (id 7), workflow dispatch rejected
with 422 and body text. -/
def sampleWorldDispatchFail : World := ⟨none, none, .ok 7, false, 422, "No ref found", false⟩

/-- Forge behaviour: both commit-resolution lookups fail. -/
def sampleWorldLookupFail : World := ⟨none, none, .ok 7, true, 0, "", false⟩

/-- Deployment for the C4 counterexample: an empty-string
`githubCommitRef` sits before a non-empty `branch` in the metadata. -/
def depEmptyRefFirst : JVal :=
  .obj [("meta", .obj [("githubCommitRef", .str ""), ("branch", .str "main")]),
    ("ref", .str "feature")]

/-- Failing input for C3: a ready-kind nested event whose deployment has
no `url` field at all. -/
def bodyNoUrl : JVal :=
  .obj [("type", .str "deployment.succeeded"),
    ("payload", .obj [("deployment", .obj [("name", .str "dashboard"), ("ref", .str "main")])])]

/-- Failing input for C10: a ready-kind event carrying no `payload`. -/
def bodyNoPayload : JVal := .obj [("type", .str "deployment.succeeded")]

end Relay

namespace V0

open JVal

/-- Core deployment fields shared by the two dialect shapes: preview
URL, project name, metadata mapping and ref. -/
def depObj (u n r : String) (m : List (String × JVal)) : JVal :=
  .obj [("url", .str u), ("name", .str n), ("meta", .obj m), ("ref", .str r)]

/-- The flat dialect: the body is the deployment object itself, with the
kind tag alongside its fields. -/
def flatDialect (u n r : String) (m : List (String × JVal)) : JVal :=
  .obj [("type", .str "deployment.succeeded"), ("url", .str u), ("name", .str n),
    ("meta", .obj m), ("ref", .str r)]

/-- The nested dialect: `{type, payload: {deployment}}` with the same
semantic content. -/
def nestedDialect (u n r : String) (m : List (String × JVal)) : JVal :=
  .obj [("type", .str "deployment.succeeded"),
    ("payload", .obj [("deployment", depObj u n r m)])]

end V0

/-! ## Helper lemmas -/

namespace Relay

open JVal

/-- Under the `Reaches` guards the handler's outcome is that of the
commit-resolution-and-dispatch tail, applied to the extracted
deployment, ref and normalized url. -/
theorem handler_reaches (hmac : String → String → String) (parse : String → Option JVal)
    (env : Env) (w : World) (req : Req) (envl payload dep : JVal) (u : String)
    (h : Reaches hmac parse env req envl payload dep u) :
    handler hmac parse env w req = processEvent w dep (refOf dep) (urlNormalize u) := by
  unfold handler
  rw [if_neg (by simp [h.hmethod]), if_neg h.hsecret, if_neg (by simp [h.hsig]), h.hparse]
  simp only [h.htype, h.hpayload, h.hdep, h.hurl]
  simp only [isStr, beq_self_eq_true, Bool.not_true, Bool.false_eq_true, if_false]
  rw [if_neg (by simp [h.hu, h.href]), if_neg (by simp [h.howner, h.hrepo, h.htoken])]

end Relay

namespace V0

open JVal

/-- A `||` step whose left operand is a string absorbs an identical
fallback further down the chain. -/
theorem jsOr_str_absorb (r : String) :
    jsOr (.str r) (jsOr (.str r) (.str "")) = jsOr (.str r) (jsOr .undefined (.str "")) := by
  cases h : r.isEmpty <;> simp [jsOr, truthy, h]

end V0

/-! ## The claims -/

namespace Relay

open JVal

/-- C1 (counterexample): the claim asserts the 401 rejection of an
unauthenticatable request holds independently of whether a secret is
configured.  It does not: with no secret configured, a POST request
with a missing signature token is answered 500 (Missing
VERCEL_WEBHOOK_SECRET), not 401 — though still with no forge call. -/
theorem claim1_counterexample :
    handler sampleHmac (sampleParse sampleDep) ⟨none, some "acme", some "webapp", some "t"⟩
        sampleWorldOk ⟨"POST", none, "rawbody"⟩
      = ⟨some ⟨500, "Missing VERCEL_WEBHOOK_SECRET"⟩, []⟩
    ∧ (500 : Nat) ≠ 401 := by
  exact ⟨rfl, by decide⟩

/-- C1 (amended): when a secret is configured (non-empty), every POST
request whose signature token is missing, empty, or different from the
keyed digest of the raw body is answered 401 with no outbound forge
call; when no secret is configured, every POST request is answered 500
before any signature comparison, likewise with no forge call. -/
theorem claim1_signature_rejection (hmac : String → String → String)
    (parse : String → Option JVal) (env : Env) (w : World) (req : Req)
    (hm : req.method = "POST") :
    (env.secret.getD "" = "" →
      handler hmac parse env w req = ⟨some ⟨500, "Missing VERCEL_WEBHOOK_SECRET"⟩, []⟩)
    ∧ (env.secret.getD "" ≠ "" →
      req.sigHeader ≠ some (hmac (env.secret.getD "") req.raw) →
      handler hmac parse env w req = ⟨some ⟨401, "Invalid signature"⟩, []⟩) := by
  constructor
  · intro hs
    unfold handler
    rw [if_neg (by simp [hm]), if_pos hs]
  · intro hs hsig
    unfold handler
    rw [if_neg (by simp [hm]), if_neg hs, if_pos hsig]

/-- C1 (witness): a concrete correctly-configured request with a wrong
signature token is answered 401 with no forge calls. -/
theorem claim1_witness :
    handler sampleHmac (sampleParse sampleDep) sampleEnv sampleWorldOk
        ⟨"POST", some "wrong-signature", "rawbody"⟩
      = ⟨some ⟨401, "Invalid signature"⟩, []⟩ :=
  (claim1_signature_rejection sampleHmac (sampleParse sampleDep) sampleEnv sampleWorldOk
    ⟨"POST", some "wrong-signature", "rawbody"⟩ rfl).2 (by decide) (by decide)

end Relay

namespace V0

open JVal

/-- C2: the flat deployment-object dialect and the nested
`{type, payload:{deployment}}` dialect with the same semantic content
(url, project name, metadata, ref) are both classified as
ready-deployment events by the duck-typed normalizer, and it extracts
the same preview address, the same ref and the same project name from
both. -/
theorem claim2_dialect_equivalence (u n r : String) (m : List (String × JVal)) :
    isReadyEvent (flatDialect u n r m) = true
    ∧ isReadyEvent (nestedDialect u n r m) = true
    ∧ rawUrlOf (flatDialect u n r m) = rawUrlOf (nestedDialect u n r m)
    ∧ refOf (flatDialect u n r m) = refOf (nestedDialect u n r m)
    ∧ projectOf (flatDialect u n r m) = projectOf (nestedDialect u n r m) := by
  refine ⟨rfl, rfl, rfl, ?_, rfl⟩
  have hflat : refOf (flatDialect u n r m) =
      jsOr ((JVal.obj m).jget "githubCommitRef")
        (jsOr ((JVal.obj m).jget "gitlabCommitRef")
          (jsOr ((JVal.obj m).jget "branch")
            (jsOr (.str r) (jsOr (.str r) (.str ""))))) := rfl
  have hnested : refOf (nestedDialect u n r m) =
      jsOr ((JVal.obj m).jget "githubCommitRef")
        (jsOr ((JVal.obj m).jget "gitlabCommitRef")
          (jsOr ((JVal.obj m).jget "branch")
            (jsOr (.str r) (jsOr .undefined (.str ""))))) := rfl
  rw [hflat, hnested, jsOr_str_absorb]

end V0

namespace Relay

open JVal

/-- C3 (code bug): a signature-valid, well-formed-JSON request whose
event matches the recognized kind but whose deployment carries no `url`
field should, per the claim and the spec (400, field-specific message,
no forge calls), be a validation failure; the deployed handler instead
evaluates `rawUrl.startsWith` on `undefined` and raises an uncaught
TypeError, sending no response (the draft variants check `!rawUrl`
before normalizing, so the reordering in the deployed file is a slip).
The kind-tag side of the claim does hold on this model (202 for an
unrecognized tag), but the validation side crashes. -/
theorem claim3_missing_url_crash :
    handler sampleHmac (sampleParse bodyNoUrl) sampleEnv sampleWorldOk sampleReq
      = ⟨none, []⟩ := rfl

/-- C4 (counterexample): with metadata `githubCommitRef = ""` and
`branch = "main"`, the claim ("first non-empty wins, an earlier empty
string does not win over a non-empty later value") demands `"main"`;
the deployed handler's `??` chain extracts the empty string. -/
theorem claim4_counterexample :
    refOf depEmptyRefFirst = .str "" ∧ refOf depEmptyRefFirst ≠ .str "main" := by
  have h0 : refOf depEmptyRefFirst = JVal.str "" := rfl
  refine ⟨h0, ?_⟩
  rw [h0]
  intro h
  exact absurd (JVal.str.inj h) (by decide)

/-- C4 (amended): the extracted ref equals the first non-NULLISH value
in the priority order metadata github commit ref, metadata gitlab
commit ref, metadata generic branch, deployment-level ref (defaulting
to `""`): an empty string at an earlier position does win over a
non-empty later one, and such an event is then rejected 400 by the
emptiness guard. -/
theorem claim4_first_non_nullish (dep : JVal) :
    refOf dep = firstNonNullish
      [jgetOpt (dep.jget "meta") "githubCommitRef",
       jgetOpt (dep.jget "meta") "gitlabCommitRef",
       jgetOpt (dep.jget "meta") "branch",
       dep.jget "ref"] := by
  simp [refOf, firstNonNullish, jsCoalesce]

/-- C9 (counterexample): the claim says a preview address that already
has a URL scheme passes through unchanged and one lacking a scheme gets
`https://` prefixed.  The code's test is `startsWith("http")`: an
address with a non-http scheme is prefixed anyway, and a scheme-less
address happening to start with "http" passes through unchanged. -/
theorem claim9_counterexample :
    urlNormalize "ftp://cdn.example.com" = "https://ftp://cdn.example.com"
    ∧ urlNormalize "httpdocs.example.com" = "httpdocs.example.com"
    ∧ "https://ftp://cdn.example.com" ≠ "ftp://cdn.example.com" := by
  exact ⟨rfl, rfl, by decide⟩

/-- C9 (amended): the pure transform applied to the preview address
before dispatch passes a string through unchanged exactly when it
starts with "http", and otherwise prefixes "https://". -/
theorem claim9_url_normalization (u : String) :
    (strStartsWith u "http" = true → urlNormalize u = u)
    ∧ (strStartsWith u "http" = false → urlNormalize u = "https://" ++ u) := by
  constructor <;> intro h <;> simp [urlNormalize, h]

/-- C9 (witness): the spec's end-to-end example address. -/
theorem claim9_witness :
    urlNormalize "dash-abc.example.com" = "https://dash-abc.example.com" :=
  (claim9_url_normalization "dash-abc.example.com").2 (by decide)

/-- C10 (code bug): the claim says every request terminates with exactly
one response out of a fixed status set and no uncaught exception.  A
signature-valid POST whose body is the well-formed JSON
`{"type": "deployment.succeeded"}` (no `payload`) makes the handler read
`envelope.payload.deployment` on `undefined`: an uncaught TypeError, no
response sent by the handler. -/
theorem claim10_missing_payload_crash :
    handler sampleHmac (sampleParse bodyNoPayload) sampleEnv sampleWorldOk sampleReq
      = ⟨none, []⟩
    ∧ (handler sampleHmac (sampleParse bodyNoPayload) sampleEnv sampleWorldOk
        sampleReq).resp = none := by
  exact ⟨rfl, rfl⟩

end Relay

namespace Relay

open JVal

/-- C5: on every successfully processed ready-deployment request (any
way the head sha resolved), the check run is created first — in queued
state, named by the fixed leading text followed by the project name,
anchored to the resolved head commit — and the workflow dispatch comes
strictly after it, carrying exactly the inputs url (the normalized
preview address), project (the project name) and check_run_id (the
decimal string of the created check run's id) on the extracted ref;
only resolution lookups may precede the pair. -/
theorem claim5_check_run_before_dispatch (hmac : String → String → String)
    (parse : String → Option JVal) (env : Env) (w : World) (req : Req)
    (envl payload dep : JVal) (u sha : String) (cid : Nat)
    (h : Reaches hmac parse env req envl payload dep u)
    (hres : metaShaOf dep = some sha ∨ (metaShaOf dep = none ∧
      (w.commitByRefSha = some sha ∨ (w.commitByRefSha = none ∧ w.branchHeadSha = some sha))))
    (hcr : w.createCheckResult = .ok cid)
    (hdisp : w.dispatchOk = true) :
    ∃ pre, handler hmac parse env w req =
      ⟨some ⟨200, "OK"⟩,
        pre ++ [.createCheck sha (checkNameStart ++ jsToString (dep.jget "name")) "queued",
          .workflowDispatch ghWorkflowFile (refOf dep) (urlNormalize u)
            (dep.jget "name") (toString cid)]⟩
      ∧ ∀ c ∈ pre, c = ForgeCall.commitLookup (refOf dep)
          ∨ c = ForgeCall.branchHeadLookup (refOf dep) := by
  rw [handler_reaches hmac parse env w req envl payload dep u h]
  rcases hres with hsha | ⟨hsha, hc | ⟨hc, hb⟩⟩
  · exact ⟨[], by simp [processEvent, dispatchPhase, createCheckRun, hsha, hcr, hdisp], by simp⟩
  · exact ⟨[.commitLookup (refOf dep)],
      by simp [processEvent, dispatchPhase, createCheckRun, resolveHeadSha, hsha, hc, hcr, hdisp],
      by simp⟩
  · exact ⟨[.commitLookup (refOf dep), .branchHeadLookup (refOf dep)],
      by simp [processEvent, dispatchPhase, createCheckRun, resolveHeadSha, hsha, hc, hb,
        hcr, hdisp],
      by simp⟩

/-- C5 (witness): the sample event (metadata sha `"abc123"`, project
`"dashboard"`) on an all-success forge: 200, check run then dispatch. -/
theorem claim5_witness :
    ∃ pre, handler sampleHmac (sampleParse (sampleEnvl sampleDep)) sampleEnv sampleWorldOk
        sampleReq =
      ⟨some ⟨200, "OK"⟩,
        pre ++ [.createCheck "abc123"
            (checkNameStart ++ jsToString (sampleDep.jget "name")) "queued",
          .workflowDispatch ghWorkflowFile (refOf sampleDep)
            (urlNormalize "dash-abc.example.com") (sampleDep.jget "name") (toString 7)]⟩
      ∧ ∀ c ∈ pre, c = ForgeCall.commitLookup (refOf sampleDep)
          ∨ c = ForgeCall.branchHeadLookup (refOf sampleDep) :=
  claim5_check_run_before_dispatch sampleHmac (sampleParse (sampleEnvl sampleDep))
    sampleEnv sampleWorldOk sampleReq (sampleEnvl sampleDep)
    ((sampleEnvl sampleDep).jget "payload") sampleDep "dash-abc.example.com" "abc123" 7
    ⟨rfl, by decide, rfl, rfl, rfl, rfl, rfl, rfl, by decide, rfl, by decide, by decide,
      by decide⟩
    (Or.inl rfl) rfl rfl

end Relay

namespace Relay

open JVal

/-- C6: whenever the workflow dispatch returns a non-success response
after the check run was created, the trace ends with exactly one
attempt to mark that check run failed (completed/failure, summary
containing the upstream status and body), the whole outcome is
identical whether or not that attempt itself throws, and the handler
responds 502 carrying the same upstream status and body text. -/
theorem claim6_best_effort_fail_mark (hmac : String → String → String)
    (parse : String → Option JVal) (env : Env) (w : World) (req : Req)
    (envl payload dep : JVal) (u sha : String) (cid : Nat)
    (h : Reaches hmac parse env req envl payload dep u)
    (hres : metaShaOf dep = some sha ∨ (metaShaOf dep = none ∧
      (w.commitByRefSha = some sha ∨ (w.commitByRefSha = none ∧ w.branchHeadSha = some sha))))
    (hcr : w.createCheckResult = .ok cid)
    (hdisp : w.dispatchOk = false) :
    (∃ pre, handler hmac parse env w req =
      ⟨some ⟨502, "GitHub workflow_dispatch failed: " ++ toString w.dispatchStatus
          ++ " " ++ w.dispatchErrText⟩,
        pre ++ [.createCheck sha (checkNameStart ++ jsToString (dep.jget "name")) "queued",
          .workflowDispatch ghWorkflowFile (refOf dep) (urlNormalize u)
            (dep.jget "name") (toString cid),
          .failCheck cid "completed" "failure"
            ("workflow_dispatch failed: " ++ toString w.dispatchStatus ++ " "
              ++ w.dispatchErrText)]⟩
      ∧ ∀ c ∈ pre, isLookupCall c = true)
    ∧ (handler hmac parse env w req).failCheckAttempts = 1
    ∧ ∀ b : Bool, handler hmac parse env
        { w with failCheckThrows := b } req = handler hmac parse env w req := by
  have hre := handler_reaches hmac parse env w req envl payload dep u h
  refine ⟨?_, ?_, fun b => rfl⟩
  · rw [hre]
    rcases hres with hsha | ⟨hsha, hc | ⟨hc, hb⟩⟩
    · exact ⟨[], by simp [processEvent, dispatchPhase, createCheckRun, safeFailCheck,
        hsha, hcr, hdisp], by simp⟩
    · exact ⟨[.commitLookup (refOf dep)],
        by simp [processEvent, dispatchPhase, createCheckRun, resolveHeadSha, safeFailCheck,
          hsha, hc, hcr, hdisp],
        by simp [isLookupCall]⟩
    · exact ⟨[.commitLookup (refOf dep), .branchHeadLookup (refOf dep)],
        by simp [processEvent, dispatchPhase, createCheckRun, resolveHeadSha, safeFailCheck,
          hsha, hc, hb, hcr, hdisp],
        by simp [isLookupCall]⟩
  · rw [hre]
    rcases hres with hsha | ⟨hsha, hc | ⟨hc, hb⟩⟩
    · simp only [Outcome.failCheckAttempts, processEvent, dispatchPhase, createCheckRun,
        safeFailCheck, hsha, hcr, hdisp]
      simp [List.countP_cons]
    · simp only [Outcome.failCheckAttempts, processEvent, dispatchPhase, createCheckRun,
        resolveHeadSha, safeFailCheck, hsha, hc, hcr, hdisp]
      simp [List.countP_cons]
    · simp only [Outcome.failCheckAttempts, processEvent, dispatchPhase, createCheckRun,
        resolveHeadSha, safeFailCheck, hsha, hc, hb, hcr, hdisp]
      simp [List.countP_cons]

/-- C6 (witness): dispatch rejected with 422 after check run 7 was
created from the sample metadata sha; exactly one fail-mark attempt and
a 502 carrying 422 and the upstream body text. -/
theorem claim6_witness :
    (∃ pre, handler sampleHmac (sampleParse (sampleEnvl sampleDep)) sampleEnv
        sampleWorldDispatchFail sampleReq =
      ⟨some ⟨502, "GitHub workflow_dispatch failed: " ++ toString (422 : Nat)
          ++ " " ++ "No ref found"⟩,
        pre ++ [.createCheck "abc123"
            (checkNameStart ++ jsToString (sampleDep.jget "name")) "queued",
          .workflowDispatch ghWorkflowFile (refOf sampleDep)
            (urlNormalize "dash-abc.example.com") (sampleDep.jget "name") (toString 7),
          .failCheck 7 "completed" "failure"
            ("workflow_dispatch failed: " ++ toString (422 : Nat) ++ " " ++ "No ref found")]⟩
      ∧ ∀ c ∈ pre, isLookupCall c = true)
    ∧ (handler sampleHmac (sampleParse (sampleEnvl sampleDep)) sampleEnv
        sampleWorldDispatchFail sampleReq).failCheckAttempts = 1
    ∧ ∀ b : Bool, handler sampleHmac (sampleParse (sampleEnvl sampleDep)) sampleEnv
        { sampleWorldDispatchFail with failCheckThrows := b } sampleReq
      = handler sampleHmac (sampleParse (sampleEnvl sampleDep)) sampleEnv
          sampleWorldDispatchFail sampleReq :=
  claim6_best_effort_fail_mark sampleHmac (sampleParse (sampleEnvl sampleDep))
    sampleEnv sampleWorldDispatchFail sampleReq (sampleEnvl sampleDep)
    ((sampleEnvl sampleDep).jget "payload") sampleDep "dash-abc.example.com" "abc123" 7
    ⟨rfl, by decide, rfl, rfl, rfl, rfl, rfl, rfl, by decide, rfl, by decide, by decide,
      by decide⟩
    (Or.inl rfl) rfl rfl

end Relay

namespace Relay

open JVal

/-- C7: when the event metadata already carries a commit id (the
`||` chain over the recognized keys githubCommitSha, commitSha, sha
yields a non-empty string), the handler issues neither the
commit-by-ref lookup nor the branch-head lookup, and the first forge
call is the check-run creation anchored to that very id — whatever the
forge then answers. -/
theorem claim7_meta_sha_short_circuit (hmac : String → String → String)
    (parse : String → Option JVal) (env : Env) (w : World) (req : Req)
    (envl payload dep : JVal) (u sha : String)
    (h : Reaches hmac parse env req envl payload dep u)
    (hsha : metaShaOf dep = some sha) :
    (handler hmac parse env w req).calls.countP (fun c => isLookupCall c) = 0
    ∧ (handler hmac parse env w req).calls.head? =
        some (.createCheck sha (checkNameStart ++ jsToString (dep.jget "name")) "queued") := by
  rw [handler_reaches hmac parse env w req envl payload dep u h]
  rcases hcc : w.createCheckResult with ⟨st, err⟩ | cid <;> rcases hd : w.dispatchOk <;>
    constructor <;>
      simp [processEvent, dispatchPhase, createCheckRun, safeFailCheck, hsha, hcc, hd,
        List.countP_cons, isLookupCall]

/-- C7 (witness): the sample event's metadata sha `"abc123"` short
circuits resolution even on a forge whose lookups would fail. -/
theorem claim7_witness :
    (handler sampleHmac (sampleParse (sampleEnvl sampleDep)) sampleEnv
        sampleWorldDispatchFail sampleReq).calls.countP (fun c => isLookupCall c) = 0
    ∧ (handler sampleHmac (sampleParse (sampleEnvl sampleDep)) sampleEnv
        sampleWorldDispatchFail sampleReq).calls.head? =
      some (.createCheck "abc123"
        (checkNameStart ++ jsToString (sampleDep.jget "name")) "queued") :=
  claim7_meta_sha_short_circuit sampleHmac (sampleParse (sampleEnvl sampleDep))
    sampleEnv sampleWorldDispatchFail sampleReq (sampleEnvl sampleDep)
    ((sampleEnvl sampleDep).jget "payload") sampleDep "dash-abc.example.com" "abc123"
    ⟨rfl, by decide, rfl, rfl, rfl, rfl, rfl, rfl, by decide, rfl, by decide, by decide,
      by decide⟩
    rfl

/-- C8: with no metadata commit id, the resolver issues the
commit-by-ref lookup first and the branch-head lookup second; when both
fail, the handler answers 502 with a message naming the attempted ref,
and the trace holds exactly those two lookups — no check run creation,
no workflow dispatch. -/
theorem claim8_unresolvable_ref (hmac : String → String → String)
    (parse : String → Option JVal) (env : Env) (w : World) (req : Req)
    (envl payload dep : JVal) (u r : String)
    (h : Reaches hmac parse env req envl payload dep u)
    (hsha : metaShaOf dep = none)
    (hc : w.commitByRefSha = none) (hb : w.branchHeadSha = none)
    (hr : refOf dep = .str r) :
    handler hmac parse env w req =
      ⟨some ⟨502, "Failed to resolve head SHA for ref '" ++ r ++ "': "
          ++ ("Could not resolve SHA for ref '" ++ r ++ "'")⟩,
        [.commitLookup (.str r), .branchHeadLookup (.str r)]⟩ := by
  rw [handler_reaches hmac parse env w req envl payload dep u h, hr]
  simp [processEvent, resolveHeadSha, hsha, hc, hb, jsToString]

/-- C8 (witness): sample event without a metadata sha on a forge whose
two lookups fail: 502 naming ref `"main"`, trace = the two lookups. -/
theorem claim8_witness :
    handler sampleHmac (sampleParse (sampleEnvl sampleDepNoSha)) sampleEnv
        sampleWorldLookupFail sampleReq =
      ⟨some ⟨502, "Failed to resolve head SHA for ref '" ++ "main" ++ "': "
          ++ ("Could not resolve SHA for ref '" ++ "main" ++ "'")⟩,
        [.commitLookup (.str "main"), .branchHeadLookup (.str "main")]⟩ :=
  claim8_unresolvable_ref sampleHmac (sampleParse (sampleEnvl sampleDepNoSha))
    sampleEnv sampleWorldLookupFail sampleReq (sampleEnvl sampleDepNoSha)
    ((sampleEnvl sampleDepNoSha).jget "payload") sampleDepNoSha "dash-abc.example.com"
    "main"
    ⟨rfl, by decide, rfl, rfl, rfl, rfl, rfl, rfl, by decide, rfl, by decide, by decide,
      by decide⟩
    rfl rfl rfl rfl

end Relay
